import Mathlib

/-!
Verification of the streaming/authorization logic shared by the two scripts
of the repository: one targets Google Calendar
(05-Outbound_Auth_3lo/strands_claude_google_3lo.py), the other GitHub
(06-Outbound_Auth_Github/github_agent.py).

The model is a shallow embedding:
* A StreamingQueue is its observable state: the ordered list of enqueued
  items and the finished flag.  The asyncio.Queue payloads are Option
  String values, with none standing for the None value of Python (the
  sentinel pushed by finish, or any None that a producer might put).
* The while-True loop of StreamingQueue.stream is embedded twice: as a
  single loop iteration (streamStep, which distinguishes suspension on an
  empty queue, termination, and yielding) and as a run to quiescence
  (streamRun, with the finished flag held fixed, which models the consumer
  running after the producer has stopped touching the queue).
* The agent_task of each script is embedded as a function from the outcomes
  of its external calls (the two possible agent invocations and the OAuth
  exchange, including any authorization-URL callbacks fired during the
  exchange) to the list of items it puts, the number of agent calls and
  authorization attempts it makes, whether finish ran, and the final value
  of the module-level token variable.
-/

/-- A queue payload: some s is an ordinary string item, none is the None
value of Python (used by finish as the completion sentinel). -/
abbrev Item := Option String

/-- Observable state of StreamingQueue (strands_claude_google_3lo.py
lines 97-119, github_agent.py lines 86-108): the FIFO contents of the
underlying asyncio.Queue and the finished flag set by finish. -/
structure StreamingQueue where
  items : List Item
  finished : Bool
deriving DecidableEq, Repr

/-- State built by the StreamingQueue constructor: empty queue, flag unset. -/
def StreamingQueue.init : StreamingQueue := ⟨[], false⟩

/-- Model of put(item): append to the tail of the queue. -/
def StreamingQueue.put (q : StreamingQueue) (item : Item) : StreamingQueue :=
  ⟨q.items ++ [item], q.finished⟩

/-- Model of finish(): set the flag, then append the None sentinel. -/
def StreamingQueue.finish (q : StreamingQueue) : StreamingQueue :=
  ⟨q.items ++ [none], true⟩

/-- Result of one iteration of the while-True loop in stream(). -/
inductive StepResult where
  | blocked
  | stopped
  | yielded (item : Item) (rest : List Item)
deriving DecidableEq, Repr

/-- One iteration of the loop of stream(): the await on queue.get()
suspends on an empty queue; then the break fires when the dequeued item is
None AND the finished flag is set; otherwise the item is yielded. -/
def streamStep : List Item → Bool → StepResult
  | [], _ => StepResult.blocked
  | none :: _, true => StepResult.stopped
  | none :: rest, false => StepResult.yielded none rest
  | some a :: rest, _ => StepResult.yielded (some a) rest

/-- Outcome of running the loop of stream() to quiescence: either the loop
broke (done observed rest, where rest is what was still in the queue behind
the removed sentinel) or the consumer is suspended on an empty queue after
having yielded observed. -/
inductive DrainResult where
  | done (observed : List Item) (rest : List Item)
  | blocked (observed : List Item)
deriving DecidableEq, Repr

/-- The loop of stream(), iterated until it breaks or suspends, with the
finished flag held at a fixed value (the producer is no longer running). -/
def streamRun : List Item → Bool → DrainResult
  | [], _ => DrainResult.blocked []
  | none :: rest, true => DrainResult.done [] rest
  | none :: rest, false =>
    match streamRun rest false with
    | DrainResult.done obs r => DrainResult.done (none :: obs) r
    | DrainResult.blocked obs => DrainResult.blocked (none :: obs)
  | some a :: rest, fin =>
    match streamRun rest fin with
    | DrainResult.done obs r => DrainResult.done (some a :: obs) r
    | DrainResult.blocked obs => DrainResult.blocked (some a :: obs)

/-- The configured trigger phrases, identical in both scripts
(needs_authentication in github_agent.py lines 133-140; the Google script
inlines the character-for-character identical list and any(...) expression
inside agent_task, strands_claude_google_3lo.py lines 156-161). -/
def auth_keywords : List String :=
  ["authentication", "authorize", "authorization", "auth",
   "sign in", "login", "access", "permission", "credential",
   "need authentication", "requires authentication"]

/-- Substring test of Python (needle in hay), on exploded characters. -/
def listHasInfix (needle : List Char) : List Char → Bool
  | [] => needle.isEmpty
  | c :: cs => needle.isPrefixOf (c :: cs) || listHasInfix needle cs

/-- Substring test of Python (needle in hay) on strings. -/
def strInStr (needle hay : String) : Bool :=
  listHasInfix needle.data hay.data

/-- Model of str.lower(): lower-case the string character by character (all
the keyword data involved here is plain ASCII). -/
def strLower (s : String) : String :=
  ⟨s.data.map Char.toLower⟩

/-- The keyword check of both scripts: some lowered keyword occurs in the
lowered response text. -/
def needs_authentication (response_text : String) : Bool :=
  auth_keywords.any fun keyword => strInStr (strLower keyword) (strLower response_text)

/-- An agent response: the response.message payload that agent_task puts on
the queue, and the text that the script extracts from it (the inline
extraction loop in the Google script, extract_response_text in the GitHub
script) and feeds to the keyword check. -/
structure AgentResp where
  message : String
  text : String
deriving DecidableEq, Repr

/-- Outcome of the OAuth exchange: the authorization URLs delivered to
on_auth_url while it ran, then either a token or a raised exception. -/
inductive AuthOutcome where
  | success (authUrls : List String) (token : String)
  | failure (authUrls : List String) (message : String)
deriving DecidableEq, Repr

/-- Fixed outcomes of the external calls a single agent_task run can make:
call1 is the result of the first agent invocation (a response or a raised
exception message), auth is the outcome of the token exchange, call2 is the
result of the retry agent invocation. -/
structure AgentEnv where
  call1 : Except String AgentResp
  auth : AuthOutcome
  call2 : Except String AgentResp

/-- What one agent_task execution did: the strings it put on the queue in
order, how many times it called the agent, how many times it attempted the
OAuth exchange, whether finish() ran, and the final value of the
module-level token variable. -/
structure TaskRun where
  emitted : List String
  agentCalls : Nat
  authAttempts : Nat
  finished : Bool
  token : Option String
deriving DecidableEq, Repr

def beginMsg : String := "Begin agent execution"

def endMsg : String := "End agent execution"

def googleAuthReqMsg : String :=
  "Authentication required for Google Calendar access. Starting authorization flow..."

def googleAuthSuccMsg : String :=
  "Authentication successful! Retrying calendar request..."

/-- Line put by on_auth_url in the Google script (lines 125-128). -/
def googleAuthUrlMsg (url : String) : String := "Authorization url: " ++ url

def githubAuthReqMsg : String :=
  "Authentication required for GitHub access. Starting authorization flow..."

def githubAuthSuccMsg : String :=
  "Authentication successful! Retrying GitHub request..."

/-- Line put by on_auth_url in the GitHub script (lines 115-118). -/
def githubAuthUrlMsg (url : String) : String := "Authorization URL: " ++ url

/-- Model of agent_task in strands_claude_google_3lo.py (lines 131-183).
Branches, in source order: the outer except catches an exception from the
first agent call; otherwise the keyword check decides whether the inner auth
block runs.  The retry agent call sits INSIDE the inner try (line 173), so
the inner except catches an exception from the token exchange or from the
retry alike, puts the authentication-failure line, and the task then falls
through to put response.message — still the ORIGINAL response when the retry
raised, since the assignment never happened — and the closing status line.
The finally block always calls queue.finish(). -/
def agent_task_google (tok₀ : Option String) (env : AgentEnv) : TaskRun :=
  match env.call1 with
  | Except.error e => ⟨[beginMsg, "Error: " ++ e], 1, 0, true, tok₀⟩
  | Except.ok r1 =>
    if needs_authentication r1.text then
      match env.auth with
      | AuthOutcome.failure urls m =>
        ⟨[beginMsg, googleAuthReqMsg] ++ urls.map googleAuthUrlMsg
            ++ ["Authentication failed: " ++ m, r1.message, endMsg],
          1, 1, true, tok₀⟩
      | AuthOutcome.success urls t =>
        match env.call2 with
        | Except.error e =>
          ⟨[beginMsg, googleAuthReqMsg] ++ urls.map googleAuthUrlMsg
              ++ [googleAuthSuccMsg, "Authentication failed: " ++ e, r1.message, endMsg],
            2, 1, true, some t⟩
        | Except.ok r2 =>
          ⟨[beginMsg, googleAuthReqMsg] ++ urls.map googleAuthUrlMsg
              ++ [googleAuthSuccMsg, r2.message, endMsg],
            2, 1, true, some t⟩
    else ⟨[beginMsg, r1.message, endMsg], 1, 0, true, tok₀⟩

/-- Model of agent_task in github_agent.py (lines 143-175).  Same shape as
the Google script except for provider wording and the behaviour of the inner
except: the retry agent call also sits INSIDE the inner try (line 163), so
an exception from the exchange or from the retry alike is caught there, the
authentication-failure line is put, and the script then executes an early
return, skipping both the put of response.message and the final status line
(the finally block still runs queue.finish()). -/
def agent_task_github (tok₀ : Option String) (env : AgentEnv) : TaskRun :=
  match env.call1 with
  | Except.error e => ⟨[beginMsg, "Error: " ++ e], 1, 0, true, tok₀⟩
  | Except.ok r1 =>
    if needs_authentication r1.text then
      match env.auth with
      | AuthOutcome.failure urls m =>
        ⟨[beginMsg, githubAuthReqMsg] ++ urls.map githubAuthUrlMsg
            ++ ["Authentication failed: " ++ m],
          1, 1, true, tok₀⟩
      | AuthOutcome.success urls t =>
        match env.call2 with
        | Except.error e =>
          ⟨[beginMsg, githubAuthReqMsg] ++ urls.map githubAuthUrlMsg
              ++ [githubAuthSuccMsg, "Authentication failed: " ++ e],
            2, 1, true, some t⟩
        | Except.ok r2 =>
          ⟨[beginMsg, githubAuthReqMsg] ++ urls.map githubAuthUrlMsg
              ++ [githubAuthSuccMsg, r2.message, endMsg],
            2, 1, true, some t⟩
    else ⟨[beginMsg, r1.message, endMsg], 1, 0, true, tok₀⟩

/-- Result of a tool invocation, up to the point where the claims care:
either the structured auth-required payload (the JSON dict with keys
auth_required, message, events) returned without touching the network, or
the tool proceeded into the try block that performs the provider API calls
(abstracted as network). -/
inductive ToolOutcome where
  | authRequired (auth_required : Bool) (message : String) (events : List String)
  | network
deriving DecidableEq, Repr

/-- Truthiness of an optional string in Python: None and the empty string
are falsy, every other string is truthy. -/
def pythonTruthy : Option String → Bool
  | none => false
  | some s => !s.isEmpty

/-- Model of get_calendar_events_today (strands_claude_google_3lo.py lines
31-46): when the global token is falsy, return the auth-required JSON;
otherwise build the Calendar client and call the API. -/
def get_calendar_events_today (google_access_token : Option String) : ToolOutcome :=
  if !pythonTruthy google_access_token then
    ToolOutcome.authRequired true
      "Google Calendar authentication is required. Please wait while we set up the authorization." []
  else ToolOutcome.network

/-- Model of inspect_github_repos (github_agent.py lines 23-37): when the
global token is falsy, return the auth-required JSON; otherwise call the
GitHub API. -/
def inspect_github_repos (github_access_token : Option String) : ToolOutcome :=
  if !pythonTruthy github_access_token then
    ToolOutcome.authRequired true
      "GitHub authentication is required. Please wait while we set up the authorization." []
  else ToolOutcome.network

/-- The single module-level queue.  Both scripts execute the constructor
once at import time (strands_claude_google_3lo.py line 122, github_agent.py
line 112); the entrypoint agent_invocation reads and writes that module
object and never makes a new one. -/
def moduleQueue : StreamingQueue := StreamingQueue.init

/-- Producer side of a request: put each emitted string, then finish()
(from the finally block of the task). -/
def runProducer (q : StreamingQueue) (msgs : List String) : StreamingQueue :=
  StreamingQueue.finish (msgs.foldl (fun acc m => acc.put (some m)) q)

/-- Consumer side: run the loop of stream() to quiescence; the queue keeps
whatever was behind the removed sentinel, and the flag is never reset. -/
def runConsumer (q : StreamingQueue) : StreamingQueue × List Item :=
  match streamRun q.items q.finished with
  | DrainResult.done obs rest => (⟨rest, q.finished⟩, obs)
  | DrainResult.blocked obs => (⟨[], q.finished⟩, obs)

/-- One full request against the Google script: agent_task writes to the
module queue, the drain loop reads it.  Returns the module queue as the next
request will find it, and the items the consumer observed.  (A completed
request is modelled by the producer running to completion and the consumer
then draining; the FIFO discipline makes the observed items independent of
the actual interleaving.) -/
def handleRequestGoogle (q : StreamingQueue) (tok₀ : Option String)
    (env : AgentEnv) : StreamingQueue × List Item :=
  runConsumer (runProducer q (agent_task_google tok₀ env).emitted)

/-- Events of the generator stream_with_task inside agent_invocation: it
yields each item of queue.stream() and then executes the await on the task. -/
inductive StreamEvent where
  | yieldItem (item : Item)
  | awaitTask
deriving DecidableEq, Repr

/-- Model of stream_with_task (strands_claude_google_3lo.py lines 229-235,
github_agent.py lines 214-218): the async-for yields each streamed item,
then the task is awaited.  The await is reached only when the drain loop
breaks; if the loop is suspended the await never runs. -/
def stream_with_task (q : StreamingQueue) : List StreamEvent :=
  match streamRun q.items q.finished with
  | DrainResult.done obs _ => obs.map StreamEvent.yieldItem ++ [StreamEvent.awaitTask]
  | DrainResult.blocked obs => obs.map StreamEvent.yieldItem

/-- The module queue as agent_task leaves it for the drain loop. -/
def queueAfterTask (r : TaskRun) : StreamingQueue :=
  runProducer StreamingQueue.init r.emitted

/-- Relates an item emitted by the Google agent_task to the item emitted at
the same point by the GitHub agent_task: equal, or one of the
provider-specific wording pairs. -/
inductive SameUpToWording : String → String → Prop where
  | same (s : String) : SameUpToWording s s
  | authReq : SameUpToWording googleAuthReqMsg githubAuthReqMsg
  | authSucc : SameUpToWording googleAuthSuccMsg githubAuthSuccMsg
  | authUrl (u : String) : SameUpToWording (googleAuthUrlMsg u) (githubAuthUrlMsg u)

/-- A run whose first agent call succeeds with text that triggers no
keyword: the auth block never runs. -/
def envPlain : AgentEnv :=
  ⟨Except.ok ⟨"plain result", "all fine"⟩, AuthOutcome.failure [] "unused",
   Except.ok ⟨"plain result", "all fine"⟩⟩

/-- A run whose first agent call reports that authorization is needed and
whose OAuth exchange then raises with message boom. -/
def envAuthFail : AgentEnv :=
  ⟨Except.ok ⟨"original response", "authentication required"⟩,
   AuthOutcome.failure [] "boom",
   Except.ok ⟨"retry response", "fine"⟩⟩

/-- A run whose first agent call itself raises with message boom1. -/
def envCall1Err : AgentEnv :=
  ⟨Except.error "boom1", AuthOutcome.failure [] "unused",
   Except.ok ⟨"retry response", "fine"⟩⟩

/-! ### Auxiliary lemmas -/

/-- With the finished flag unset, the loop yields everything and suspends:
it never breaks. -/
theorem streamRun_false (q : List Item) :
    streamRun q false = DrainResult.blocked q := by
  induction q with
  | nil => rfl
  | cons i rest ih =>
    cases i with
    | none => simp [streamRun, ih]
    | some a => simp [streamRun, ih]

/-- With the flag set, the loop yields every non-sentinel item before the
first none, then breaks, leaving everything behind that none in the queue. -/
theorem streamRun_through (items rest : List Item)
    (h : (none : Item) ∉ items) :
    streamRun (items ++ none :: rest) true = DrainResult.done items rest := by
  induction items with
  | nil => rfl
  | cons i tl ih =>
    cases i with
    | none => exact absurd (List.mem_cons_self _ _) h
    | some a =>
      have h' : (none : Item) ∉ tl := fun hm => h (List.mem_cons_of_mem _ hm)
      simp [streamRun, ih h']

/-- The boolean substring scan decides the contiguous-sublist relation. -/
theorem listHasInfix_iff (needle hay : List Char) :
    listHasInfix needle hay = true ↔ needle <:+: hay := by
  induction hay with
  | nil =>
    simp [listHasInfix, List.isEmpty_iff, List.infix_nil]
  | cons c cs ih =>
    simp [listHasInfix, ih, List.infix_cons_iff]

/-- Equal lists are related pointwise by the wording correspondence. -/
theorem sameUpToWording_refl (l : List String) :
    List.Forall₂ SameUpToWording l l := by
  induction l with
  | nil => exact List.Forall₂.nil
  | cons a tl ih => exact List.Forall₂.cons (SameUpToWording.same a) ih

/-- The per-URL callback lines are related pointwise. -/
theorem sameUpToWording_urls (urls : List String) :
    List.Forall₂ SameUpToWording (urls.map googleAuthUrlMsg)
      (urls.map githubAuthUrlMsg) := by
  induction urls with
  | nil => exact List.Forall₂.nil
  | cons u tl ih => exact List.Forall₂.cons (SameUpToWording.authUrl u) ih

/-- Pointwise relation of lists is closed under appending. -/
theorem forall₂_append_both {R : String → String → Prop} {a b c d : List String}
    (h₁ : List.Forall₂ R a b) (h₂ : List.Forall₂ R c d) :
    List.Forall₂ R (a ++ c) (b ++ d) := by
  induction h₁ with
  | nil => simpa using h₂
  | cons h _ ih => exact List.Forall₂.cons h ih

/-- Running the producer appends the emitted items and the sentinel and sets
the flag. -/
theorem runProducer_eq (msgs : List String) : ∀ q : StreamingQueue,
    runProducer q msgs = ⟨q.items ++ msgs.map some ++ [none], true⟩ := by
  induction msgs with
  | nil =>
    intro q
    simp [runProducer, StreamingQueue.finish]
  | cons m tl ih =>
    intro q
    simp [runProducer, StreamingQueue.put] at ih ⊢
    simp [ih ⟨q.items ++ [some m], q.finished⟩]

/-- A completed request drains everything: the consumer observes exactly the
emitted items, and the module queue is left empty with the flag set. -/
theorem handleRequestGoogle_eq (q : StreamingQueue) (tok₀ : Option String)
    (env : AgentEnv) (h : q.items = []) :
    handleRequestGoogle q tok₀ env
      = (⟨[], true⟩, (agent_task_google tok₀ env).emitted.map some) := by
  have hs : (none : Item) ∉ (agent_task_google tok₀ env).emitted.map some := by
    simp
  have hr := streamRun_through ((agent_task_google tok₀ env).emitted.map some) [] hs
  simp [handleRequestGoogle, runConsumer, runProducer_eq, h, hr]

/-- Folding put over a list appends it to the queue contents. -/
theorem putAll_eq (items : List Item) : ∀ q : StreamingQueue,
    items.foldl StreamingQueue.put q = ⟨q.items ++ items, q.finished⟩ := by
  induction items with
  | nil =>
    intro q
    simp
  | cons i tl ih =>
    intro q
    rw [List.foldl_cons, ih]
    simp [StreamingQueue.put]

/-- The trace of stream_with_task over the queue a finished task leaves
behind is the emitted items, yielded in order, followed by the single
await-task event. -/
theorem stream_with_task_of_producer (msgs : List String) :
    stream_with_task (runProducer StreamingQueue.init msgs)
      = (msgs.map fun s => StreamEvent.yieldItem (some s)) ++ [StreamEvent.awaitTask] := by
  have hs : (none : Item) ∉ msgs.map some := by simp
  have hr := streamRun_through (msgs.map some) [] hs
  simp only [runProducer_eq, StreamingQueue.init, List.nil_append] at hr ⊢
  simp [stream_with_task, runProducer_eq, hr, List.map_map, Function.comp_def]

/-! ### Claim theorems -/

/-- C1: for every finite sequence of items enqueued via put followed by
exactly one finish, the consumer iterating stream() observes exactly those
items, each exactly once, in FIFO order, and then the stream terminates with
the queue fully drained. -/
theorem streamingQueue_fifo_delivery (items : List Item)
    (h : (none : Item) ∉ items) :
    runConsumer (StreamingQueue.finish
        (items.foldl StreamingQueue.put StreamingQueue.init))
      = (⟨[], true⟩, items) := by
  have hr := streamRun_through items [] h
  simp [runConsumer, putAll_eq, StreamingQueue.init, StreamingQueue.finish, hr]

/-- Witness for streamingQueue_fifo_delivery at a two-item sequence. -/
theorem streamingQueue_fifo_delivery_witness :
    ((none : Item) ∉ [some "a", some "b"])
  ∧ runConsumer (StreamingQueue.finish
        ([some "a", some "b"].foldl StreamingQueue.put StreamingQueue.init))
      = (⟨[], true⟩, [some "a", some "b"]) :=
  ⟨by decide, streamingQueue_fifo_delivery [some "a", some "b"] (by decide)⟩

/-- C10: items enqueued via put after finish has been called sit behind the
sentinel: stream() stops at the first dequeued sentinel once the flag is
set, the consumer observes only the items that preceded finish, and the late
items stay in the queue undelivered. -/
theorem items_put_after_finish_undelivered (items extra : List Item)
    (h : (none : Item) ∉ items) :
    runConsumer ⟨items ++ [none] ++ extra, true⟩ = (⟨extra, true⟩, items) := by
  have hr := streamRun_through items extra h
  simp only [List.append_assoc, List.cons_append, List.nil_append] at hr ⊢
  simp [runConsumer, hr]

/-- Witness for items_put_after_finish_undelivered: one item before finish,
one after; only the first is observed. -/
theorem items_put_after_finish_undelivered_witness :
    ((none : Item) ∉ [some "a"])
  ∧ runConsumer ⟨[some "a"] ++ [none] ++ [some "late"], true⟩
      = (⟨[some "late"], true⟩, [some "a"]) :=
  ⟨by decide, items_put_after_finish_undelivered [some "a"] [some "late"] (by decide)⟩

/-- C4: the consumer never terminates while the flag is unset; one loop
iteration stops precisely when the removed item is the sentinel and the flag
is set; a None dequeued with the flag unset is yielded, not treated as
end-of-stream; an empty queue suspends the consumer, and with the flag unset
the whole loop yields everything and suspends rather than ending. -/
theorem stream_stops_only_on_sentinel_with_flag :
    (∀ q : List Item, streamStep q false ≠ StepResult.stopped)
  ∧ (∀ (q : List Item) (fin : Bool),
      streamStep q fin = StepResult.stopped ↔ fin = true ∧ ∃ rest, q = none :: rest)
  ∧ (∀ rest : List Item, streamStep (none :: rest) false = StepResult.yielded none rest)
  ∧ (∀ fin : Bool, streamStep [] fin = StepResult.blocked)
  ∧ (∀ q : List Item, streamRun q false = DrainResult.blocked q) := by
  refine ⟨?_, ?_, ?_, ?_, ?_⟩
  · intro q h
    cases q with
    | nil => simp [streamStep] at h
    | cons i rest => cases i <;> simp [streamStep] at h
  · intro q fin
    cases q with
    | nil => cases fin <;> simp [streamStep]
    | cons i rest => cases i <;> cases fin <;> simp [streamStep]
  · intro rest
    rfl
  · intro fin
    rfl
  · exact streamRun_false

/-- Witness for stream_stops_only_on_sentinel_with_flag: the loop does stop
on a dequeued sentinel with the flag set. -/
theorem stream_stops_only_on_sentinel_with_flag_witness :
    streamStep [(none : Item)] true = StepResult.stopped
  ∧ (true = true ∧ ∃ rest, [(none : Item)] = none :: rest) :=
  ⟨by rfl, (stream_stops_only_on_sentinel_with_flag.2.1 [none] true).mp (by rfl)⟩

/-- C2 counterexample: the claim says every inbound request gets a fresh
queue (empty, flag unset) and no queue state is shared between requests.  In
the code the StreamingQueue constructor runs once at module import; after
one completed request the very same module-level queue — which the next
request will read and write — has its finished flag permanently set, unlike
a freshly constructed queue. -/
theorem moduleQueue_not_fresh_for_second_request :
    ((handleRequestGoogle moduleQueue none envPlain).1).finished = true
  ∧ StreamingQueue.init.finished = false := by
  rw [handleRequestGoogle_eq moduleQueue none envPlain rfl]
  exact ⟨rfl, rfl⟩

/-- C2 amended: the queue is a module-level singleton created once at import
and reused, unreset, by every request.  Within one request the background
task writes it until finish and the drain loop reads it until the sentinel,
observing exactly the emitted items; but the state the request leaves behind
(an empty item list with the finished flag set) is exactly the state the
next request starts from, and it differs from a freshly constructed queue. -/
theorem moduleQueue_singleton_state_persists (tok₀ : Option String)
    (env : AgentEnv) :
    ((handleRequestGoogle moduleQueue tok₀ env).1).items = []
  ∧ ((handleRequestGoogle moduleQueue tok₀ env).1).finished = true
  ∧ StreamingQueue.init.finished = false
  ∧ (handleRequestGoogle moduleQueue tok₀ env).2
      = (agent_task_google tok₀ env).emitted.map some := by
  rw [handleRequestGoogle_eq moduleQueue tok₀ env rfl]
  exact ⟨rfl, rfl, rfl, rfl⟩

/-- C3: per request the OAuth exchange is attempted at most once, and when
the exchange raises, the stream carries the authentication-failure line and
the task finishes after a single agent call — no second authorization
attempt and no retry of the agent call, in either script. -/
theorem auth_exchange_at_most_once (tok₀ : Option String) (env : AgentEnv) :
    (agent_task_google tok₀ env).authAttempts ≤ 1
  ∧ (agent_task_github tok₀ env).authAttempts ≤ 1
  ∧ (∀ r1 urls m, env.call1 = Except.ok r1 →
      needs_authentication r1.text = true →
      env.auth = AuthOutcome.failure urls m →
        ("Authentication failed: " ++ m) ∈ (agent_task_google tok₀ env).emitted
      ∧ (agent_task_google tok₀ env).agentCalls = 1
      ∧ (agent_task_google tok₀ env).authAttempts = 1
      ∧ (agent_task_google tok₀ env).finished = true
      ∧ ("Authentication failed: " ++ m) ∈ (agent_task_github tok₀ env).emitted
      ∧ (agent_task_github tok₀ env).agentCalls = 1
      ∧ (agent_task_github tok₀ env).authAttempts = 1
      ∧ (agent_task_github tok₀ env).finished = true) := by
  obtain ⟨c1, auth, c2⟩ := env
  refine ⟨?_, ?_, ?_⟩
  · cases c1 with
    | error e => simp [agent_task_google]
    | ok r1 =>
      by_cases hna : needs_authentication r1.text
      · cases auth with
        | failure urls m => simp [agent_task_google, hna]
        | success urls t => cases c2 <;> simp [agent_task_google, hna]
      · simp [agent_task_google, hna]
  · cases c1 with
    | error e => simp [agent_task_github]
    | ok r1 =>
      by_cases hna : needs_authentication r1.text
      · cases auth with
        | failure urls m => simp [agent_task_github, hna]
        | success urls t => cases c2 <;> simp [agent_task_github, hna]
      · simp [agent_task_github, hna]
  · intro r1 urls m h1 hna hauth
    cases h1
    cases hauth
    simp [agent_task_google, agent_task_github, hna]

/-- Witness for auth_exchange_at_most_once at a failing exchange. -/
theorem auth_exchange_at_most_once_witness :
    ("Authentication failed: " ++ "boom") ∈ (agent_task_google none envAuthFail).emitted
  ∧ (agent_task_google none envAuthFail).agentCalls = 1
  ∧ (agent_task_google none envAuthFail).authAttempts = 1
  ∧ (agent_task_google none envAuthFail).finished = true
  ∧ ("Authentication failed: " ++ "boom") ∈ (agent_task_github none envAuthFail).emitted
  ∧ (agent_task_github none envAuthFail).agentCalls = 1
  ∧ (agent_task_github none envAuthFail).authAttempts = 1
  ∧ (agent_task_github none envAuthFail).finished = true :=
  (auth_exchange_at_most_once none envAuthFail).2.2
    ⟨"original response", "authentication required"⟩ [] "boom" rfl (by decide) rfl

/-- C5: whenever the shared token slot is unset (None or the empty string,
the falsy values of an optional string), each tool returns the structured
auth-required payload and never reaches its network-calling branch. -/
theorem absent_token_returns_auth_required (tok : Option String)
    (h : tok = none ∨ tok = some "") :
    get_calendar_events_today tok
      = ToolOutcome.authRequired true
          "Google Calendar authentication is required. Please wait while we set up the authorization." []
  ∧ get_calendar_events_today tok ≠ ToolOutcome.network
  ∧ inspect_github_repos tok
      = ToolOutcome.authRequired true
          "GitHub authentication is required. Please wait while we set up the authorization." []
  ∧ inspect_github_repos tok ≠ ToolOutcome.network := by
  rcases h with h | h <;> subst h <;>
    exact ⟨by decide, by decide, by decide, by decide⟩

/-- Witness for absent_token_returns_auth_required at None. -/
theorem absent_token_returns_auth_required_witness :
    get_calendar_events_today none
      = ToolOutcome.authRequired true
          "Google Calendar authentication is required. Please wait while we set up the authorization." []
  ∧ get_calendar_events_today none ≠ ToolOutcome.network
  ∧ inspect_github_repos none
      = ToolOutcome.authRequired true
          "GitHub authentication is required. Please wait while we set up the authorization." []
  ∧ inspect_github_repos none ≠ ToolOutcome.network :=
  absent_token_returns_auth_required none (Or.inl rfl)

/-- C6: in every execution of agent_task, in both scripts, the stream is
terminated: finish runs (the finally block) on every branch.  An exception
that reaches the outermost except — one from the first agent call — is
converted to the generic error string as the last item before completion.
An exception from the retry call never reaches the outermost level: the
inner except catches it (the retry sits inside the inner try in both
sources), puts the authentication-failure line, and the stream is still
terminated — the Google script then also puts the original response message
and the closing status line, the GitHub script returns at once. -/
theorem task_always_terminates_stream (tok₀ : Option String) (env : AgentEnv) :
    (agent_task_google tok₀ env).finished = true
  ∧ (agent_task_github tok₀ env).finished = true
  ∧ (∀ e, env.call1 = Except.error e →
        (agent_task_google tok₀ env).emitted = [beginMsg, "Error: " ++ e]
      ∧ (agent_task_github tok₀ env).emitted = [beginMsg, "Error: " ++ e])
  ∧ (∀ r1 urls t e, env.call1 = Except.ok r1 →
      needs_authentication r1.text = true →
      env.auth = AuthOutcome.success urls t →
      env.call2 = Except.error e →
        (agent_task_google tok₀ env).emitted
          = [beginMsg, googleAuthReqMsg] ++ urls.map googleAuthUrlMsg
              ++ [googleAuthSuccMsg, "Authentication failed: " ++ e, r1.message, endMsg]
      ∧ (agent_task_github tok₀ env).emitted
          = [beginMsg, githubAuthReqMsg] ++ urls.map githubAuthUrlMsg
              ++ [githubAuthSuccMsg, "Authentication failed: " ++ e]) := by
  obtain ⟨c1, auth, c2⟩ := env
  refine ⟨?_, ?_, ?_, ?_⟩
  · cases c1 with
    | error e => rfl
    | ok r1 =>
      by_cases hna : needs_authentication r1.text
      · cases auth with
        | failure urls m => simp [agent_task_google, hna]
        | success urls t => cases c2 <;> simp [agent_task_google, hna]
      · simp [agent_task_google, hna]
  · cases c1 with
    | error e => rfl
    | ok r1 =>
      by_cases hna : needs_authentication r1.text
      · cases auth with
        | failure urls m => simp [agent_task_github, hna]
        | success urls t => cases c2 <;> simp [agent_task_github, hna]
      · simp [agent_task_github, hna]
  · intro e h1
    cases h1
    exact ⟨rfl, rfl⟩
  · intro r1 urls t e h1 hna hauth h2
    cases h1
    cases hauth
    cases h2
    simp [agent_task_google, agent_task_github, hna]

/-- Witness for task_always_terminates_stream: first agent call raises. -/
theorem task_always_terminates_stream_witness :
    (agent_task_google none envCall1Err).emitted = [beginMsg, "Error: " ++ "boom1"]
  ∧ (agent_task_github none envCall1Err).emitted = [beginMsg, "Error: " ++ "boom1"] :=
  (task_always_terminates_stream none envCall1Err).2.2.1 "boom1" rfl

/-- C7: the authorization-required check is case-insensitive — it depends
only on the lower-cased text — and returns true exactly when some configured
keyword phrase occurs as a contiguous substring anywhere in the lower-cased
response text. -/
theorem needs_authentication_keyword_spec (t : String) :
    (needs_authentication t = true
      ↔ ∃ k ∈ auth_keywords, (strLower k).data <:+: (strLower t).data)
  ∧ (∀ s : String, strLower s = strLower t →
      needs_authentication s = needs_authentication t) := by
  constructor
  · simp [needs_authentication, strInStr, List.any_eq_true, listHasInfix_iff]
  · intro s h
    simp [needs_authentication, strInStr, h]

/-- Witness for needs_authentication_keyword_spec: a mixed-case hit. -/
theorem needs_authentication_keyword_spec_witness :
    needs_authentication "Please LOGIN now" = true
  ∧ (∃ k ∈ auth_keywords,
      (strLower k).data <:+: (strLower "Please LOGIN now").data)
  ∧ needs_authentication "PLEASE login NOW" = needs_authentication "Please LOGIN now" := by
  refine ⟨by decide, ?_, ?_⟩
  · exact (needs_authentication_keyword_spec "Please LOGIN now").1.mp (by decide)
  · exact (needs_authentication_keyword_spec "Please LOGIN now").2 "PLEASE login NOW" (by decide)

/-- C8: the drain loop of stream_with_task yields every streamed item and
reaches the await on the task only after the loop has observed the sentinel
and ended; the await is the single last event.  If finish has not run, the
drain loop never ends, so the await — and hence the return of the
invocation — is never reached. -/
theorem await_task_after_sentinel (tok₀ : Option String) (env : AgentEnv) :
    stream_with_task (queueAfterTask (agent_task_google tok₀ env))
      = ((agent_task_google tok₀ env).emitted.map fun s => StreamEvent.yieldItem (some s))
        ++ [StreamEvent.awaitTask]
  ∧ stream_with_task (queueAfterTask (agent_task_github tok₀ env))
      = ((agent_task_github tok₀ env).emitted.map fun s => StreamEvent.yieldItem (some s))
        ++ [StreamEvent.awaitTask]
  ∧ (∀ q : StreamingQueue, q.finished = false →
      StreamEvent.awaitTask ∉ stream_with_task q) := by
  refine ⟨stream_with_task_of_producer _, stream_with_task_of_producer _, ?_⟩
  intro q h hmem
  simp [stream_with_task, h, streamRun_false] at hmem

/-- Witness for await_task_after_sentinel: with the flag unset, the trace of
a non-empty queue contains no await event. -/
theorem await_task_after_sentinel_witness :
    StreamEvent.awaitTask ∉ stream_with_task ⟨[some "a"], false⟩ :=
  (await_task_after_sentinel none envPlain).2.2 ⟨[some "a"], false⟩ rfl

/-- C9 counterexample: after a failed authorization exchange the two scripts
do NOT enqueue the same remaining items.  At envAuthFail the Google task
emits five items (it falls through and still enqueues the original response
message and the closing status line) while the GitHub task returns early and
emits only three — no wording correspondence can match sequences of
different lengths. -/
theorem scripts_diverge_after_auth_failure :
    (agent_task_google none envAuthFail).emitted.length = 5
  ∧ (agent_task_github none envAuthFail).emitted.length = 3 := by
  constructor <;> decide

/-- C9 amended: the two agent_task functions enqueue pointwise-corresponding
item sequences (equal up to the provider-specific wording of the three
status lines) on every path where the inner authentication block either does
not run or completes without raising — a failing first call, a response that
triggers no keyword, or an exchange and retry that both succeed.  On the
paths where the inner except fires — a failed exchange or a failed retry —
they diverge: the Google script falls through and additionally enqueues the
(original) response message and the closing status line after the common
prefix, while the GitHub script returns immediately. -/
theorem scripts_equivalent_up_to_wording (tok₀ : Option String) (env : AgentEnv) :
    (∀ urls t r2, env.auth = AuthOutcome.success urls t →
        env.call2 = Except.ok r2 →
        List.Forall₂ SameUpToWording (agent_task_google tok₀ env).emitted
          (agent_task_github tok₀ env).emitted)
  ∧ (∀ e, env.call1 = Except.error e →
        (agent_task_google tok₀ env).emitted = (agent_task_github tok₀ env).emitted)
  ∧ (∀ r1, env.call1 = Except.ok r1 → needs_authentication r1.text = false →
        (agent_task_google tok₀ env).emitted = (agent_task_github tok₀ env).emitted)
  ∧ (∀ r1 urls m, env.call1 = Except.ok r1 → needs_authentication r1.text = true →
        env.auth = AuthOutcome.failure urls m →
        ∃ P, (agent_task_google tok₀ env).emitted = P ++ [r1.message, endMsg]
          ∧ List.Forall₂ SameUpToWording P (agent_task_github tok₀ env).emitted)
  ∧ (∀ r1 urls t e, env.call1 = Except.ok r1 → needs_authentication r1.text = true →
        env.auth = AuthOutcome.success urls t → env.call2 = Except.error e →
        ∃ P, (agent_task_google tok₀ env).emitted = P ++ [r1.message, endMsg]
          ∧ List.Forall₂ SameUpToWording P (agent_task_github tok₀ env).emitted) := by
  obtain ⟨c1, auth, c2⟩ := env
  refine ⟨?_, ?_, ?_, ?_, ?_⟩
  · intro urls t r2 hauth h2
    cases hauth
    cases h2
    cases c1 with
    | error e => exact sameUpToWording_refl _
    | ok r1 =>
      by_cases hna : needs_authentication r1.text
      · simp only [agent_task_google, agent_task_github, hna, if_true,
          List.cons_append, List.nil_append]
        exact List.Forall₂.cons (SameUpToWording.same _)
          (List.Forall₂.cons SameUpToWording.authReq
            (forall₂_append_both (sameUpToWording_urls urls)
              (List.Forall₂.cons SameUpToWording.authSucc
                (List.Forall₂.cons (SameUpToWording.same _)
                  (List.Forall₂.cons (SameUpToWording.same _) List.Forall₂.nil)))))
      · simp only [agent_task_google, agent_task_github, hna, if_false]
        exact sameUpToWording_refl _
  · intro e h1
    cases h1
    rfl
  · intro r1 h1 hna
    cases h1
    simp [agent_task_google, agent_task_github, hna]
  · intro r1 urls m h1 hna hauth
    cases h1
    cases hauth
    refine ⟨[beginMsg, googleAuthReqMsg] ++ urls.map googleAuthUrlMsg
        ++ ["Authentication failed: " ++ m], ?_, ?_⟩
    · simp [agent_task_google, hna]
    · simp only [agent_task_github, hna, if_true, List.cons_append, List.nil_append]
      exact List.Forall₂.cons (SameUpToWording.same _)
        (List.Forall₂.cons SameUpToWording.authReq
          (forall₂_append_both (sameUpToWording_urls urls)
            (List.Forall₂.cons (SameUpToWording.same _) List.Forall₂.nil)))
  · intro r1 urls t e h1 hna hauth h2
    cases h1
    cases hauth
    cases h2
    refine ⟨[beginMsg, googleAuthReqMsg] ++ urls.map googleAuthUrlMsg
        ++ [googleAuthSuccMsg, "Authentication failed: " ++ e], ?_, ?_⟩
    · simp [agent_task_google, hna]
    · simp only [agent_task_github, hna, if_true, List.cons_append, List.nil_append]
      exact List.Forall₂.cons (SameUpToWording.same _)
        (List.Forall₂.cons SameUpToWording.authReq
          (forall₂_append_both (sameUpToWording_urls urls)
            (List.Forall₂.cons SameUpToWording.authSucc
              (List.Forall₂.cons (SameUpToWording.same _) List.Forall₂.nil))))

/-- Witness for scripts_equivalent_up_to_wording at the failed-exchange
environment. -/
theorem scripts_equivalent_up_to_wording_witness :
    ∃ P, (agent_task_google none envAuthFail).emitted
        = P ++ ["original response", endMsg]
      ∧ List.Forall₂ SameUpToWording P (agent_task_github none envAuthFail).emitted :=
  (scripts_equivalent_up_to_wording none envAuthFail).2.2.2.1
    ⟨"original response", "authentication required"⟩ [] "boom" rfl (by decide) rfl
